import Mathlib

/-!
Verification of the run/stream/confirmation bridge of the Eh-I-DeCoder
python backend, as a shallow embedding of src/python/coder_wrapper.py,
src/python/io_wrapper.py and src/python/exceptions.py.

Conventions of the embedding:
- python dictionaries returned to the RPC caller become Lean structures;
- exception classes are modelled by the two relevant categories: a subclass
  of Exception, and KeyboardInterrupt (which subclasses BaseException only,
  so a bare `except Exception` clause does NOT catch it);
- the asyncio environment is a record of booleans: whether the captured
  main loop is alive, whether the remote streamWrite call raises, whether
  the followup streamError call raises;
- each wrapped io method is a pure function of its arguments, the
  environment, and the original method (passed as a function parameter);
  its observable side effects (submission to the bridge, blocking on the
  returned handle, exception propagation, streamError attempts) are
  returned as a flags record.
-/

namespace EhIDeCoder

/-- The two categories of python exceptions that the worker exit path of
coder_wrapper.py distinguishes: an ordinary Exception subclass, and
KeyboardInterrupt, which derives from BaseException but not Exception. -/
inductive PyExc
  | exc
  | keyboardInterrupt
deriving DecidableEq, Repr

/-- Whether a bare python clause of the form except Exception catches the
given exception. KeyboardInterrupt is a BaseException, not an Exception,
so it is not caught. -/
def catchesException : PyExc → Bool
  | PyExc.exc => true
  | PyExc.keyboardInterrupt => false

/-- exceptions.py, create_error_response / BaseError.to_dict: the
standardized error dictionary with fields error (the message), type (the
exception class name) and details (empty when none were supplied). -/
structure ErrorResponse where
  error : String
  type : String
  details : List (String × String)
deriving DecidableEq, Repr

/-- exceptions.py lines 69-78: build the standardized error response for an
exception with the given class name and message and no details. -/
def create_error_response (className message : String) : ErrorResponse :=
  { error := message, type := className, details := [] }

/-! ## coder_wrapper.py : terminal command detection and run_wrapper -/

/-- Embedding of python str.strip() with no argument: remove leading and
trailing whitespace characters. -/
def py_strip (s : String) : String :=
  String.mk
    (((s.data.dropWhile Char.isWhitespace).reverse.dropWhile Char.isWhitespace).reverse)

/-- coder_wrapper.py lines 203-206: the fixed table of commands that must
be executed in the terminal rather than remotely. -/
def terminal_commands : List String :=
  ["/model", "/editor-model", "/weak-model", "/chat-mode",
   "/help", "/ask", "/code", "/architect", "/context"]

/-- coder_wrapper.py lines 201-212, _is_terminal_command: strip the message
and test exact membership in the fixed table. (The isinstance guard is
vacuous here since the embedded message is always a string.) -/
def is_terminal_command (message : String) : Bool :=
  terminal_commands.contains (py_strip message)

/-- Observable outcome of one execution of task_to_run_in_thread
(coder_wrapper.py lines 234-258): how many times signal_completion ran on
the exit path, whether the finally block cleared _current_run_thread, and
which exception, if any, escaped the worker function. -/
structure WorkerExit where
  completionsSignaled : Nat
  threadRefCleared : Bool
  escaped : Option PyExc
deriving DecidableEq, Repr

/-- coder_wrapper.py lines 234-258, task_to_run_in_thread, as a function of
the outcome of the original run method (none = normal return, some e = it
raised e). The body is try (run; signal_completion) except Exception
(signal_completion) finally (clear thread ref): an exception that the
except Exception clause does not catch skips both signal sites and escapes,
while the finally block always clears the thread reference. -/
def task_to_run_in_thread (runOutcome : Option PyExc) : WorkerExit :=
  match runOutcome with
  | none =>
      { completionsSignaled := 1, threadRefCleared := true, escaped := none }
  | some e =>
      if catchesException e then
        { completionsSignaled := 1, threadRefCleared := true, escaped := none }
      else
        { completionsSignaled := 0, threadRefCleared := true, escaped := some e }

/-- Observable outcome of one call to run_wrapper (coder_wrapper.py lines
214-272): the returned status dictionary, whether the terminal-command
notice was emitted, how many completion signals run_wrapper itself issued,
whether a worker thread was spawned (and its name), and whether run_wrapper
blocked waiting for the worker (the source has no join call, so this is
false on every path). -/
structure RunWrapperResult where
  status : String
  command : Option String
  noticeEmitted : Bool
  completionsSignaled : Nat
  workerSpawned : Bool
  threadName : Option String
  waitedForWorker : Bool
deriving DecidableEq, Repr

/-- coder_wrapper.py lines 214-272, run_wrapper: terminal commands get an
immediate notice, a completion signal, and the status dictionary with
fields status and command; anything else spawns the daemon thread named
CoderRunThread, stores it as _current_run_thread, starts it, and returns
at once with the status dictionary holding status and thread_name. -/
def run_wrapper (message : String) : RunWrapperResult :=
  if is_terminal_command message then
    { status := "terminal_command_detected", command := some message,
      noticeEmitted := true, completionsSignaled := 1,
      workerSpawned := false, threadName := none, waitedForWorker := false }
  else
    { status := "coder.run initiated", command := none,
      noticeEmitted := false, completionsSignaled := 0,
      workerSpawned := true, threadName := some "CoderRunThread",
      waitedForWorker := false }

/-! ## coder_wrapper.py : stop -/

/-- The worker thread reference held in _current_run_thread: a thread
object whose ident attribute may be None before the thread starts. -/
structure ThreadRef where
  ident : Option Nat
deriving DecidableEq, Repr

/-- The value stop returns to the RPC caller: either a status dictionary or
the standardized error dictionary produced by create_error_response. -/
inductive StopResult
  | ok (status : String)
  | error (resp : ErrorResponse)
deriving DecidableEq, Repr

/-- Observable outcome of one call to stop (coder_wrapper.py lines
163-191): the returned value, and how many completion signals stop issued
(the body contains no signal_completion call, so this is zero on every
path). The outer except clause converts every raise into an error
response, so the function is total and never raises to the caller. -/
structure StopRun where
  result : StopResult
  completionsSignaled : Nat
deriving DecidableEq, Repr

/-- coder_wrapper.py lines 163-191, stop, as a function of the current
_current_run_thread reference and of how many threads
PyThreadState_SetAsyncExc reports as affected. -/
def stop (currentRunThread : Option ThreadRef) (asyncExcAffected : Nat) : StopRun :=
  match currentRunThread with
  | none =>
      { result := StopResult.error
          (create_error_response "ProcessError" "No active thread to interrupt"),
        completionsSignaled := 0 }
  | some t =>
      match t.ident with
      | none =>
          { result := StopResult.error
              (create_error_response "ProcessError" "No thread ID available"),
            completionsSignaled := 0 }
      | some _ =>
          if asyncExcAffected > 1 then
            { result := StopResult.error
                (create_error_response "ProcessError" "Failed to interrupt thread"),
              completionsSignaled := 0 }
          else
            { result := StopResult.ok "interrupt_sent_to_thread",
              completionsSignaled := 0 }

/-! ## io_wrapper.py : confirmation channel -/

/-- The scalar replies that reach confirm_ask_wrapper from the remote peer
(after the single-value dictionary unwrapping in
_async_confirmation_request): the literal "d" marker meaning do not ask
again, a boolean, or some other string returned verbatim. -/
inductive Resp
  | dont
  | ans (b : Bool)
  | strVal (s : String)
deriving DecidableEq, Repr

/-- The argument tuple of confirm_ask (io_wrapper.py line 115). -/
structure ConfirmArgs where
  question : String
  default : Option Bool
  subject : Option String
  explicit_yes_required : Bool
  group : Option String
  allow_never : Bool
  group_response : Option String
deriving DecidableEq, Repr

/-- Observable outcome of one call to confirm_ask_wrapper: the answer
returned to the assistant, the never_prompts set after the call, how many
remote confirmation round trips were attempted, and, when the original
confirm_ask was invoked as fallback, the arguments it received. -/
structure ConfirmOutcome where
  answer : Resp
  never_prompts : List (String × Option String)
  roundTrips : Nat
  originalCalledWith : Option ConfirmArgs
deriving DecidableEq, Repr

/-- io_wrapper.py lines 115-151, confirm_ask_wrapper, as a function of the
never_prompts set held on the io instance, the arguments, whether the
captured main loop is alive (main_loop truthy and not closed), the remote
reply (none models the round trip raising an exception), and the original
confirm_ask method. Structure of the source: a never_prompts hit returns
False before anything else; with a live loop the remote round trip is
awaited indefinitely, a "d" reply with allow_never records the
(question, subject) pair and returns False, any other reply is returned
verbatim, and an exception falls into the except clause which calls the
original method with the same seven arguments; without a live loop the
original method is called directly with the same seven arguments. -/
def confirm_ask_wrapper (never_prompts : List (String × Option String))
    (args : ConfirmArgs) (loopAlive : Bool) (remoteReply : Option Resp)
    (original_confirm_ask : ConfirmArgs → Resp) : ConfirmOutcome :=
  let question_id := (args.question, args.subject)
  if never_prompts.contains question_id then
    { answer := Resp.ans false, never_prompts := never_prompts,
      roundTrips := 0, originalCalledWith := none }
  else if loopAlive then
    match remoteReply with
    | some r =>
        if r = Resp.dont ∧ args.allow_never = true then
          { answer := Resp.ans false, never_prompts := question_id :: never_prompts,
            roundTrips := 1, originalCalledWith := none }
        else
          { answer := r, never_prompts := never_prompts,
            roundTrips := 1, originalCalledWith := none }
    | none =>
        { answer := original_confirm_ask args, never_prompts := never_prompts,
          roundTrips := 1, originalCalledWith := some args }
  else
    { answer := original_confirm_ask args, never_prompts := never_prompts,
      roundTrips := 0, originalCalledWith := some args }

/-! ## io_wrapper.py : output mirroring wrappers -/

/-- The asyncio environment seen by the io wrappers: whether the captured
main loop is alive, whether the remote streamWrite call raises when
delivered, and whether the followup streamError call raises too. -/
structure Env where
  loopAlive : Bool
  remoteFails : Bool
  streamErrorFails : Bool
deriving DecidableEq, Repr

/-- Observable side effects of one wrapped io call: whether a remote call
was submitted through the bridge, whether the wrapper blocked on the
returned handle, whether any exception propagated to the caller, whether a
best-effort streamError notification was attempted after a delivery
failure, and whether the has_command_output flag was set. -/
structure SendFlags where
  scheduled : Bool
  waitedOnHandle : Bool
  raisedToCaller : Bool
  streamErrorAttempted : Bool
  setHasCommandOutput : Bool
deriving DecidableEq, Repr

/-- io_wrapper.py lines 167-188, assistant_output_wrapper: with a live loop
it submits send_to_webapp and then blocks on future.result with a one
second timeout (catching any timeout or error); send_to_webapp itself
catches a failing streamWrite and attempts a streamError notification.
The original assistant_output is always called last with the same
arguments and its value is returned unchanged. -/
def assistant_output_wrapper {α : Type} (env : Env)
    (original_assistant_output : String → Option Bool → α)
    (message : String) (pretty : Option Bool) : α × SendFlags :=
  ⟨original_assistant_output message pretty,
   { scheduled := env.loopAlive,
     waitedOnHandle := env.loopAlive,
     raisedToCaller := false,
     streamErrorAttempted := env.loopAlive && env.remoteFails,
     setHasCommandOutput := false }⟩

/-- io_wrapper.py lines 190-204, stream_output_wrapper: with a live loop it
submits send_stream_update and does not wait on the handle;
send_stream_update catches a failing streamWrite and attempts a
streamError notification. The original stream_output is always called with
the same arguments and its value returned unchanged. -/
def stream_output_wrapper {α : Type} (env : Env)
    (original_stream_output : String → Bool → α)
    (text : String) (final : Bool) : α × SendFlags :=
  ⟨original_stream_output text final,
   { scheduled := env.loopAlive,
     waitedOnHandle := false,
     raisedToCaller := false,
     streamErrorAttempted := env.loopAlive && env.remoteFails,
     setHasCommandOutput := false }⟩

/-- io_wrapper.py lines 207-224, tool_output_wrapper: sets
has_command_output, submits send_to_webapp_command without waiting
(send_to_webapp_command catches a failing streamWrite and only logs it; it
attempts no streamError call), then calls the original tool_output with
the same message and keyword arguments and returns its value. -/
def tool_output_wrapper {α : Type} (env : Env)
    (original_tool_output : String → List (String × String) → α)
    (message : String) (kwargs : List (String × String)) : α × SendFlags :=
  ⟨original_tool_output message kwargs,
   { scheduled := env.loopAlive,
     waitedOnHandle := false,
     raisedToCaller := false,
     streamErrorAttempted := false,
     setHasCommandOutput := true }⟩

/-- io_wrapper.py lines 226-243, tool_error_wrapper: same shape as
tool_output_wrapper, mirroring through send_to_webapp_command and
delegating to the original tool_error. -/
def tool_error_wrapper {α : Type} (env : Env)
    (original_tool_error : String → List (String × String) → α)
    (message : String) (kwargs : List (String × String)) : α × SendFlags :=
  ⟨original_tool_error message kwargs,
   { scheduled := env.loopAlive,
     waitedOnHandle := false,
     raisedToCaller := false,
     streamErrorAttempted := false,
     setHasCommandOutput := true }⟩

/-- io_wrapper.py lines 245-262, tool_warning_wrapper: same shape as
tool_output_wrapper, mirroring through send_to_webapp_command and
delegating to the original tool_warning. -/
def tool_warning_wrapper {α : Type} (env : Env)
    (original_tool_warning : String → List (String × String) → α)
    (message : String) (kwargs : List (String × String)) : α × SendFlags :=
  ⟨original_tool_warning message kwargs,
   { scheduled := env.loopAlive,
     waitedOnHandle := false,
     raisedToCaller := false,
     streamErrorAttempted := false,
     setHasCommandOutput := true }⟩

/-- io_wrapper.py lines 264-284, print_wrapper: joins the positional
arguments into the webapp payload, mirrors through send_to_webapp_command
without waiting, then calls the original print with the same positional
and keyword arguments and returns its value. -/
def print_wrapper {α : Type} (env : Env)
    (original_print : List String → List (String × String) → α)
    (args : List String) (kwargs : List (String × String)) : α × SendFlags :=
  ⟨original_print args kwargs,
   { scheduled := env.loopAlive,
     waitedOnHandle := false,
     raisedToCaller := false,
     streamErrorAttempted := false,
     setHasCommandOutput := true }⟩

/-- coder_wrapper.py lines 193-199, signal_completion: submits the
MessageHandler.streamComplete call through _safe_create_task (which picks
a scheduling path in every environment) and discards the returned handle;
the surrounding except clause stops any error from reaching the caller. -/
def signal_completion (_env : Env) : SendFlags :=
  { scheduled := true,
    waitedOnHandle := false,
    raisedToCaller := false,
    streamErrorAttempted := false,
    setHasCommandOutput := false }

/-! ## io_wrapper.py : init state and the connection-gated prompt -/

/-- The mutable wrapper state set in IOWrapper init (io_wrapper.py lines
25-74): the shared connection flag starts optimistic at True, the monitor
poll interval is half a second (stored here in milliseconds), and the
response and command-output trackers start empty. -/
structure IOWrapperState where
  is_connected : Bool
  connection_status_check_interval_ms : Nat
  has_command_output : Bool
  last_response : Option String
deriving DecidableEq, Repr

/-- io_wrapper.py lines 32-71: the state as constructed by init. -/
def initIOWrapperState : IOWrapperState :=
  { is_connected := true,
    connection_status_check_interval_ms := 500,
    has_command_output := false,
    last_response := none }

/-- io_wrapper.py line 372: the sleep between connection polls inside the
wrapped prompt, in seconds. -/
def promptPollIntervalSeconds : Nat := 3

/-- Outcome of one call to the wrapped prompt (io_wrapper.py lines
360-382): the original prompt method was invoked after the given number of
flag polls and completed sleeps totalling the given seconds; or the wait
was terminated by a keyboard interrupt during a sleep at the given poll
index; or the loop is still waiting after the modelled number of
iterations (fuel). -/
inductive PromptOutcome
  | proceedOriginal (polls : Nat) (secondsSlept : Nat)
  | exitInterrupted (polls : Nat) (secondsSlept : Nat)
  | pending
deriving DecidableEq, Repr

/-- io_wrapper.py lines 369-376, the waiting loop of wrapped_prompt: at
poll index k the loop condition rereads is_connected (reads k); a true
read leaves the loop and proceeds to the original prompt; otherwise the
thread sleeps promptPollIntervalSeconds, and a keyboard interrupt landing
during that sleep (intr k) makes the wrapped prompt return "exit". The
loop has no bound in the source; the fuel argument only truncates the
model, reported as pending. -/
def promptWaitLoop (reads intr : Nat → Bool) : Nat → Nat → Nat → PromptOutcome
  | 0, _, _ => PromptOutcome.pending
  | fuel + 1, k, slept =>
      if reads k then
        PromptOutcome.proceedOriginal k slept
      else if intr k then
        PromptOutcome.exitInterrupted k slept
      else
        promptWaitLoop reads intr fuel (k + 1) (slept + promptPollIntervalSeconds)

/-- io_wrapper.py lines 360-382, wrapped_prompt, as a function of the
successive values the shared is_connected flag shows to this thread
(reads) and of where a keyboard interrupt lands (intr). Returns the
outcome together with whether the disconnected guidance block was
printed. A true initial read proceeds straight to the original prompt
with no guidance, no poll and no sleep. -/
def wrapped_prompt (reads intr : Nat → Bool) (fuel : Nat) :
    PromptOutcome × Bool :=
  if reads 0 then
    (PromptOutcome.proceedOriginal 0 0, false)
  else
    (promptWaitLoop reads intr fuel 1 0, true)

/-! ## Theorems -/

/-- C1: completion signalling per worker outcome, evaluated on the code.
The claim states that the worker exit path invokes signal_completion
exactly once for every outcome of the run operation, including the
injected KeyboardInterrupt delivered by stop. On the code, a normal
return and a raised Exception each signal exactly once, but the except
Exception clause of task_to_run_in_thread does not catch
KeyboardInterrupt, so on the injected-interrupt outcome the worker exits
with zero completion signals and the interrupt escapes the worker
function. -/
theorem signal_completion_counts_per_outcome :
    (task_to_run_in_thread none).completionsSignaled = 1 ∧
    (task_to_run_in_thread (some PyExc.exc)).completionsSignaled = 1 ∧
    (task_to_run_in_thread (some PyExc.keyboardInterrupt)).completionsSignaled = 0 ∧
    (task_to_run_in_thread (some PyExc.keyboardInterrupt)).escaped =
      some PyExc.keyboardInterrupt := by
  decide

/-- C5: a stop call finding no active worker thread returns the structured
error dictionary with error, type and details fields (and does not raise,
since the embedded stop is total: its outer except clause converts every
raise into this dictionary), and issues no completion signal; moreover
the worker exit path clears the thread reference on every outcome, so a
stop issued right after a run completes naturally takes exactly this
nothing-to-cancel path and produces no duplicate completion signal. -/
theorem stop_without_active_thread_structured_error :
    (∀ outcome : Option PyExc,
      (task_to_run_in_thread outcome).threadRefCleared = true) ∧
    ∀ n : Nat,
      stop none n =
        { result := StopResult.error
            { error := "No active thread to interrupt",
              type := "ProcessError", details := [] },
          completionsSignaled := 0 } := by
  constructor
  · intro outcome
    cases outcome with
    | none => rfl
    | some e => cases e <;> rfl
  · intro n
    rfl

/-- C9: immediately after IOWrapper init the shared connection flag reads
True (optimistic start), and a console prompt issued while every read of
the flag returns that initial value proceeds straight to the original
prompt method: zero polls, zero seconds slept, no guidance printed. -/
theorem init_connected_prompt_proceeds :
    initIOWrapperState.is_connected = true ∧
    ∀ (intr : Nat → Bool) (fuel : Nat),
      wrapped_prompt (fun _ => initIOWrapperState.is_connected) intr fuel =
        (PromptOutcome.proceedOriginal 0 0, false) :=
  ⟨rfl, fun _ _ => rfl⟩

/-- C10: every intercepted io method delegates to the corresponding
original method with the same arguments and returns its value unchanged,
and lets no exception reach the call site, in every environment
(including one where the webapp delivery fails). -/
theorem wrappers_preserve_original_result :
    (∀ (α : Type) (env : Env) (orig : String → Option Bool → α)
        (m : String) (p : Option Bool),
      (assistant_output_wrapper env orig m p).1 = orig m p ∧
      (assistant_output_wrapper env orig m p).2.raisedToCaller = false) ∧
    (∀ (α : Type) (env : Env) (orig : String → Bool → α)
        (t : String) (f : Bool),
      (stream_output_wrapper env orig t f).1 = orig t f ∧
      (stream_output_wrapper env orig t f).2.raisedToCaller = false) ∧
    (∀ (α : Type) (env : Env) (orig : String → List (String × String) → α)
        (m : String) (k : List (String × String)),
      (tool_output_wrapper env orig m k).1 = orig m k ∧
      (tool_output_wrapper env orig m k).2.raisedToCaller = false) ∧
    (∀ (α : Type) (env : Env) (orig : String → List (String × String) → α)
        (m : String) (k : List (String × String)),
      (tool_error_wrapper env orig m k).1 = orig m k ∧
      (tool_error_wrapper env orig m k).2.raisedToCaller = false) ∧
    (∀ (α : Type) (env : Env) (orig : String → List (String × String) → α)
        (m : String) (k : List (String × String)),
      (tool_warning_wrapper env orig m k).1 = orig m k ∧
      (tool_warning_wrapper env orig m k).2.raisedToCaller = false) ∧
    (∀ (α : Type) (env : Env) (orig : List String → List (String × String) → α)
        (a : List String) (k : List (String × String)),
      (print_wrapper env orig a k).1 = orig a k ∧
      (print_wrapper env orig a k).2.raisedToCaller = false) :=
  ⟨fun _ _ _ _ _ => ⟨rfl, rfl⟩,
   fun _ _ _ _ _ => ⟨rfl, rfl⟩,
   fun _ _ _ _ _ => ⟨rfl, rfl⟩,
   fun _ _ _ _ _ => ⟨rfl, rfl⟩,
   fun _ _ _ _ _ => ⟨rfl, rfl⟩,
   fun _ _ _ _ _ => ⟨rfl, rfl⟩⟩

/-- C4 counterexample: the claim as stated is false on the code at a
concrete input. With a live loop and a failing remote call, the
assistant_output delivery path blocks on the returned handle (the source
calls future.result with a one second timeout) instead of discarding it,
and a delivery failure on the command path is only logged: no streamError
notification is attempted for it. -/
theorem assistant_output_waits_on_handle :
    (assistant_output_wrapper
        { loopAlive := true, remoteFails := true, streamErrorFails := false }
        (fun m _ => m) "chunk" none).2.waitedOnHandle = true ∧
    (tool_output_wrapper
        { loopAlive := true, remoteFails := true, streamErrorFails := false }
        (fun m _ => m) "chunk" []).2.streamErrorAttempted = false :=
  ⟨rfl, rfl⟩

/-- C4 amended: the stream_output, command-output (tool output, error,
warning, print) and signal_completion paths are fire-and-forget: they
submit the remote call and discard the handle without waiting, while the
assistant_output path waits on the handle whenever the loop is alive.
No path ever propagates a delivery failure to the producing worker. A
failing remote call triggers a best-effort streamError attempt on the
assistant-role paths (assistant_output and stream_output); on the
command-role paths the failure is only logged. -/
theorem send_paths_fire_and_forget_amended :
    ∀ (env : Env),
      (∀ (α : Type) (orig : String → Option Bool → α) (m : String) (p : Option Bool),
        (assistant_output_wrapper env orig m p).2 =
          { scheduled := env.loopAlive, waitedOnHandle := env.loopAlive,
            raisedToCaller := false,
            streamErrorAttempted := env.loopAlive && env.remoteFails,
            setHasCommandOutput := false }) ∧
      (∀ (α : Type) (orig : String → Bool → α) (t : String) (f : Bool),
        (stream_output_wrapper env orig t f).2 =
          { scheduled := env.loopAlive, waitedOnHandle := false,
            raisedToCaller := false,
            streamErrorAttempted := env.loopAlive && env.remoteFails,
            setHasCommandOutput := false }) ∧
      (∀ (α : Type) (orig : String → List (String × String) → α)
          (m : String) (k : List (String × String)),
        (tool_output_wrapper env orig m k).2 =
          { scheduled := env.loopAlive, waitedOnHandle := false,
            raisedToCaller := false, streamErrorAttempted := false,
            setHasCommandOutput := true } ∧
        (tool_error_wrapper env orig m k).2 =
          { scheduled := env.loopAlive, waitedOnHandle := false,
            raisedToCaller := false, streamErrorAttempted := false,
            setHasCommandOutput := true } ∧
        (tool_warning_wrapper env orig m k).2 =
          { scheduled := env.loopAlive, waitedOnHandle := false,
            raisedToCaller := false, streamErrorAttempted := false,
            setHasCommandOutput := true }) ∧
      (∀ (α : Type) (orig : List String → List (String × String) → α)
          (a : List String) (k : List (String × String)),
        (print_wrapper env orig a k).2 =
          { scheduled := env.loopAlive, waitedOnHandle := false,
            raisedToCaller := false, streamErrorAttempted := false,
            setHasCommandOutput := true }) ∧
      signal_completion env =
        { scheduled := true, waitedOnHandle := false,
          raisedToCaller := false, streamErrorAttempted := false,
          setHasCommandOutput := false } :=
  fun _ =>
    ⟨fun _ _ _ _ => rfl,
     fun _ _ _ _ => rfl,
     fun _ _ _ _ => ⟨rfl, rfl, rfl⟩,
     fun _ _ _ _ => rfl,
     rfl⟩

/-- C3: a message whose stripped form exactly equals an entry of the fixed
terminal-command table makes run_wrapper emit the stream notice, signal
completion once, return the terminal-command status, and spawn no worker;
a message whose stripped form is not in the table (in particular one that
merely begins with such a command followed by extra text) starts a worker
normally and returns at once. -/
theorem run_wrapper_terminal_command_exact_match :
    ∀ m : String,
      (py_strip m ∈ terminal_commands →
        run_wrapper m =
          { status := "terminal_command_detected", command := some m,
            noticeEmitted := true, completionsSignaled := 1,
            workerSpawned := false, threadName := none,
            waitedForWorker := false }) ∧
      (py_strip m ∉ terminal_commands →
        run_wrapper m =
          { status := "coder.run initiated", command := none,
            noticeEmitted := false, completionsSignaled := 0,
            workerSpawned := true, threadName := some "CoderRunThread",
            waitedForWorker := false }) := by
  intro m
  constructor
  · intro h
    have hb : is_terminal_command m = true := by
      simpa [is_terminal_command] using h
    simp [run_wrapper, hb]
  · intro h
    have hb : is_terminal_command m = false := by
      simpa [is_terminal_command] using h
    simp [run_wrapper, hb]

/-- Witness for C3: the padded exact command " /model " is detected as a
terminal command, while "/model gpt-4", which begins with a table entry
followed by extra text, starts a worker normally. -/
theorem run_wrapper_terminal_command_exact_match_witness :
    run_wrapper " /model " =
      { status := "terminal_command_detected", command := some " /model ",
        noticeEmitted := true, completionsSignaled := 1,
        workerSpawned := false, threadName := none,
        waitedForWorker := false } ∧
    run_wrapper "/model gpt-4" =
      { status := "coder.run initiated", command := none,
        noticeEmitted := false, completionsSignaled := 0,
        workerSpawned := true, threadName := some "CoderRunThread",
        waitedForWorker := false } :=
  ⟨(run_wrapper_terminal_command_exact_match " /model ").1 (by decide),
   (run_wrapper_terminal_command_exact_match "/model gpt-4").2 (by decide)⟩

/-- C7 counterexample: the claim as stated is false on the code at a
concrete input. The dictionary returned for a non-terminal message is
status "coder.run initiated" with a thread_name field, not status
"started" with a workerId field, and a cancel issued while a run is
active returns status "interrupt_sent_to_thread", not "interrupt_sent". -/
theorem run_wrapper_status_not_started :
    (run_wrapper "add tests for foo.py").status = "coder.run initiated" ∧
    (run_wrapper "add tests for foo.py").status ≠ "started" ∧
    (stop (some { ident := some 1 }) 1).result =
      StopResult.ok "interrupt_sent_to_thread" ∧
    (stop (some { ident := some 1 }) 1).result ≠
      StopResult.ok "interrupt_sent" := by
  decide

/-- C7 amended: for every non-terminal-command message, run_wrapper
returns immediately after spawning the worker (it never waits on the
worker) with the dictionary holding status "coder.run initiated" and
thread_name "CoderRunThread"; a stop issued while the worker thread
reference is set (with the usual PyThreadState_SetAsyncExc result of at
most one affected thread) returns status "interrupt_sent_to_thread". -/
theorem run_and_stop_actual_status_dictionaries :
    (∀ m : String, is_terminal_command m = false →
      run_wrapper m =
        { status := "coder.run initiated", command := none,
          noticeEmitted := false, completionsSignaled := 0,
          workerSpawned := true, threadName := some "CoderRunThread",
          waitedForWorker := false }) ∧
    (∀ tid n : Nat, n ≤ 1 →
      stop (some { ident := some tid }) n =
        { result := StopResult.ok "interrupt_sent_to_thread",
          completionsSignaled := 0 }) := by
  constructor
  · intro m h
    simp [run_wrapper, h]
  · intro tid n h
    have hn : ¬ n > 1 := by omega
    simp [stop, hn]

/-- Witness for the amended C7 at a concrete message and thread. -/
theorem run_and_stop_actual_status_dictionaries_witness :
    run_wrapper "add tests for foo.py" =
      { status := "coder.run initiated", command := none,
        noticeEmitted := false, completionsSignaled := 0,
        workerSpawned := true, threadName := some "CoderRunThread",
        waitedForWorker := false } ∧
    stop (some { ident := some 7 }) 1 =
      { result := StopResult.ok "interrupt_sent_to_thread",
        completionsSignaled := 0 } :=
  ⟨run_and_stop_actual_status_dictionaries.1 "add tests for foo.py" (by decide),
   run_and_stop_actual_status_dictionaries.2 7 1 (by decide)⟩

/-- C2: when the remote reply to a confirmation with allow_never is the
do-not-ask-again marker, the (question, subject) pair is recorded in the
never-ask set and the call returns the negative answer False; every
subsequent confirm_ask with the same pair returns False with zero remote
round trips and without touching the original method. -/
theorem never_ask_records_and_short_circuits :
    ∀ (never : List (String × Option String)) (args : ConfirmArgs)
      (orig : ConfirmArgs → Resp),
      args.allow_never = true →
      (confirm_ask_wrapper never args true (some Resp.dont) orig).answer =
        Resp.ans false ∧
      (args.question, args.subject) ∈
        (confirm_ask_wrapper never args true (some Resp.dont) orig).never_prompts ∧
      ∀ (remote2 : Option Resp) (orig2 : ConfirmArgs → Resp),
        (confirm_ask_wrapper
            (confirm_ask_wrapper never args true (some Resp.dont) orig).never_prompts
            args true remote2 orig2).answer = Resp.ans false ∧
        (confirm_ask_wrapper
            (confirm_ask_wrapper never args true (some Resp.dont) orig).never_prompts
            args true remote2 orig2).roundTrips = 0 ∧
        (confirm_ask_wrapper
            (confirm_ask_wrapper never args true (some Resp.dont) orig).never_prompts
            args true remote2 orig2).originalCalledWith = none := by
  intro never args orig hallow
  by_cases hmem : (args.question, args.subject) ∈ never
  · refine ⟨by simp [confirm_ask_wrapper, hmem],
      by simp [confirm_ask_wrapper, hmem], ?_⟩
    intro remote2 orig2
    refine ⟨?_, ?_, ?_⟩ <;> simp [confirm_ask_wrapper, hmem]
  · have hfirst :
        (confirm_ask_wrapper never args true (some Resp.dont) orig).never_prompts =
          (args.question, args.subject) :: never := by
      simp [confirm_ask_wrapper, hmem, hallow]
    refine ⟨by simp [confirm_ask_wrapper, hmem, hallow], by simp [hfirst], ?_⟩
    intro remote2 orig2
    rw [hfirst]
    refine ⟨?_, ?_, ?_⟩ <;> simp [confirm_ask_wrapper]

/-- Witness for C2 at a concrete confirmation request. -/
theorem never_ask_records_and_short_circuits_witness :
    (confirm_ask_wrapper []
        { question := "Apply this edit?", default := none,
          subject := some "foo.py", explicit_yes_required := false,
          group := none, allow_never := true, group_response := none }
        true (some Resp.dont) (fun _ => Resp.ans true)).answer =
      Resp.ans false ∧
    ("Apply this edit?", some "foo.py") ∈
      (confirm_ask_wrapper []
        { question := "Apply this edit?", default := none,
          subject := some "foo.py", explicit_yes_required := false,
          group := none, allow_never := true, group_response := none }
        true (some Resp.dont) (fun _ => Resp.ans true)).never_prompts ∧
    (confirm_ask_wrapper
        (confirm_ask_wrapper []
          { question := "Apply this edit?", default := none,
            subject := some "foo.py", explicit_yes_required := false,
            group := none, allow_never := true, group_response := none }
          true (some Resp.dont) (fun _ => Resp.ans true)).never_prompts
        { question := "Apply this edit?", default := none,
          subject := some "foo.py", explicit_yes_required := false,
          group := none, allow_never := true, group_response := none }
        true (some (Resp.ans true)) (fun _ => Resp.ans true)).roundTrips = 0 := by
  have h := never_ask_records_and_short_circuits []
    { question := "Apply this edit?", default := none,
      subject := some "foo.py", explicit_yes_required := false,
      group := none, allow_never := true, group_response := none }
    (fun _ => Resp.ans true) rfl
  exact ⟨h.1, h.2.1, (h.2.2 (some (Resp.ans true)) (fun _ => Resp.ans true)).2.1⟩

/-- C6: when the remote round trip cannot be made (no live main loop) or
fails (the awaited remote call raises, modelled by remoteReply none), the
wrapper falls back to the original confirm_ask invoked with the same
argument tuple and returns its result, provided the pair is not already
in the never-ask set (a hit there answers False before any round trip is
considered). -/
theorem confirm_ask_fallback_to_original :
    ∀ (never : List (String × Option String)) (args : ConfirmArgs)
      (remote : Option Resp) (orig : ConfirmArgs → Resp),
      (args.question, args.subject) ∉ never →
      ((confirm_ask_wrapper never args false remote orig).answer = orig args ∧
       (confirm_ask_wrapper never args false remote orig).originalCalledWith =
         some args) ∧
      ((confirm_ask_wrapper never args true none orig).answer = orig args ∧
       (confirm_ask_wrapper never args true none orig).originalCalledWith =
         some args) := by
  intro never args remote orig h
  refine ⟨⟨?_, ?_⟩, ⟨?_, ?_⟩⟩ <;> simp [confirm_ask_wrapper, h]

/-- Witness for C6 at a concrete confirmation request: both the
no-live-loop path and the failing-round-trip path return the value of the
original confirm_ask. -/
theorem confirm_ask_fallback_to_original_witness :
    (confirm_ask_wrapper []
        { question := "Run the command?", default := some true,
          subject := none, explicit_yes_required := false,
          group := none, allow_never := false, group_response := none }
        false (some Resp.dont) (fun _ => Resp.ans true)).answer =
      Resp.ans true ∧
    (confirm_ask_wrapper []
        { question := "Run the command?", default := some true,
          subject := none, explicit_yes_required := false,
          group := none, allow_never := false, group_response := none }
        true none (fun _ => Resp.ans true)).answer = Resp.ans true := by
  have h := confirm_ask_fallback_to_original []
    { question := "Run the command?", default := some true,
      subject := none, explicit_yes_required := false,
      group := none, allow_never := false, group_response := none }
    (some Resp.dont) (fun _ => Resp.ans true) (by simp)
  exact ⟨h.1.1, h.2.1⟩

/-- Soundness of the waiting loop for the proceed outcome: the original
prompt is only reached at a poll where the connection flag read true, and
the completed sleeps before it each lasted promptPollIntervalSeconds. -/
lemma promptWaitLoop_proceed_sound (reads intr : Nat → Bool) :
    ∀ (fuel k slept j s : Nat),
      promptWaitLoop reads intr fuel k slept = PromptOutcome.proceedOriginal j s →
      reads j = true ∧ k ≤ j ∧ s = slept + promptPollIntervalSeconds * (j - k) := by
  intro fuel
  induction fuel with
  | zero =>
      intro k slept j s h
      simp [promptWaitLoop] at h
  | succ n ih =>
      intro k slept j s h
      by_cases hr : reads k
      · simp [promptWaitLoop, hr] at h
        obtain ⟨hj, hs⟩ := h
        subst hj
        subst hs
        simpa using hr
      · by_cases hi : intr k
        · simp [promptWaitLoop, hr, hi] at h
        · simp [promptWaitLoop, hr, hi] at h
          obtain ⟨h1, h2, h3⟩ := ih (k + 1) (slept + promptPollIntervalSeconds) j s h
          refine ⟨h1, by omega, ?_⟩
          simp only [promptPollIntervalSeconds] at h3 ⊢
          omega

/-- Soundness of the waiting loop for the interrupted outcome: the wait
only ends in exitInterrupted at a poll where the flag still read false
and a keyboard interrupt landed during the sleep. -/
lemma promptWaitLoop_interrupt_sound (reads intr : Nat → Bool) :
    ∀ (fuel k slept j s : Nat),
      promptWaitLoop reads intr fuel k slept = PromptOutcome.exitInterrupted j s →
      intr j = true ∧ reads j = false ∧ k ≤ j := by
  intro fuel
  induction fuel with
  | zero =>
      intro k slept j s h
      simp [promptWaitLoop] at h
  | succ n ih =>
      intro k slept j s h
      by_cases hr : reads k
      · simp [promptWaitLoop, hr] at h
      · by_cases hi : intr k
        · simp [promptWaitLoop, hr, hi] at h
          obtain ⟨hj, _⟩ := h
          subst hj
          exact ⟨hi, by simpa using hr, le_refl _⟩
        · simp [promptWaitLoop, hr, hi] at h
          obtain ⟨h1, h2, h3⟩ := ih (k + 1) (slept + promptPollIntervalSeconds) j s h
          exact ⟨h1, h2, by omega⟩

/-- Completeness of the waiting loop for the interrupted outcome: while
the flag keeps reading false, the first keyboard interrupt that lands
terminates the wait at that poll. -/
lemma promptWaitLoop_interrupt_complete (reads intr : Nat → Bool) :
    ∀ (fuel k slept t : Nat),
      k ≤ t → t < k + fuel →
      (∀ j, k ≤ j → j ≤ t → reads j = false) →
      (∀ j, k ≤ j → j < t → intr j = false) →
      intr t = true →
      promptWaitLoop reads intr fuel k slept =
        PromptOutcome.exitInterrupted t
          (slept + promptPollIntervalSeconds * (t - k)) := by
  intro fuel
  induction fuel with
  | zero =>
      intro k slept t hkt hlt _ _ _
      omega
  | succ n ih =>
      intro k slept t hkt hlt hreads hintr hit
      have hrk : reads k = false := hreads k (le_refl _) hkt
      rcases Nat.eq_or_lt_of_le hkt with heq | hlt2
      · subst heq
        simp [promptWaitLoop, hrk, hit]
      · have hik : intr k = false := hintr k (le_refl _) hlt2
        have hrec := ih (k + 1) (slept + promptPollIntervalSeconds) t
          (by omega) (by omega)
          (fun j hj1 hj2 => hreads j (by omega) hj2)
          (fun j hj1 hj2 => hintr j (by omega) hj2)
          hit
        have harith :
            slept + promptPollIntervalSeconds +
              promptPollIntervalSeconds * (t - (k + 1)) =
            slept + promptPollIntervalSeconds * (t - k) := by
          simp only [promptPollIntervalSeconds]
          omega
        simp [promptWaitLoop, hrk, hik, hrec, harith]

/-- C8: when the wrapped prompt starts while the shared flag reads
disconnected, the guidance block is printed; the original prompt method
is reached only at a poll where the flag read connected, after sleeping
promptPollIntervalSeconds (3 seconds) between consecutive polls; an
exitInterrupted outcome only arises from a keyboard interrupt landing
during the wait while the flag still read disconnected; and while the
flag keeps reading disconnected the first interrupt that lands makes the
wrapped prompt return instead of continuing to block. -/
theorem wrapped_prompt_waits_for_connection :
    ∀ (reads intr : Nat → Bool) (fuel : Nat),
      (reads 0 = false → (wrapped_prompt reads intr fuel).2 = true) ∧
      (∀ j s, reads 0 = false →
        (wrapped_prompt reads intr fuel).1 = PromptOutcome.proceedOriginal j s →
        reads j = true ∧ 1 ≤ j ∧ s = promptPollIntervalSeconds * (j - 1)) ∧
      (∀ j s,
        (wrapped_prompt reads intr fuel).1 = PromptOutcome.exitInterrupted j s →
        intr j = true ∧ reads j = false) ∧
      (∀ t, reads 0 = false → 1 ≤ t → t < 1 + fuel →
        (∀ j, 1 ≤ j → j ≤ t → reads j = false) →
        (∀ j, 1 ≤ j → j < t → intr j = false) →
        intr t = true →
        (wrapped_prompt reads intr fuel).1 =
          PromptOutcome.exitInterrupted t
            (promptPollIntervalSeconds * (t - 1))) := by
  intro reads intr fuel
  refine ⟨?_, ?_, ?_, ?_⟩
  · intro h0
    simp [wrapped_prompt, h0]
  · intro j s h0 h
    rw [wrapped_prompt] at h
    simp only [h0, Bool.false_eq_true, if_false] at h
    obtain ⟨h1, h2, h3⟩ := promptWaitLoop_proceed_sound reads intr fuel 1 0 j s h
    exact ⟨h1, h2, by simpa using h3⟩
  · intro j s h
    rw [wrapped_prompt] at h
    by_cases h0 : reads 0
    · simp [h0] at h
    · simp only [h0, Bool.false_eq_true, if_false] at h
      obtain ⟨h1, h2, _⟩ := promptWaitLoop_interrupt_sound reads intr fuel 1 0 j s h
      exact ⟨h1, h2⟩
  · intro t h0 ht1 htf hreads hintr hit
    rw [wrapped_prompt]
    simp only [h0, Bool.false_eq_true, if_false]
    have h := promptWaitLoop_interrupt_complete reads intr fuel 1 0 t ht1
      (by omega) hreads hintr hit
    simpa using h

/-- Witness for C8: with the flag permanently disconnected and a keyboard
interrupt landing during the first sleep, the wrapped prompt prints the
guidance and returns via the interrupt instead of blocking. -/
theorem wrapped_prompt_waits_for_connection_witness :
    (wrapped_prompt (fun _ => false) (fun k => k == 1) 3).1 =
      PromptOutcome.exitInterrupted 1 0 ∧
    (wrapped_prompt (fun _ => false) (fun k => k == 1) 3).2 = true := by
  have h := wrapped_prompt_waits_for_connection (fun _ => false) (fun k => k == 1) 3
  constructor
  · have hc := h.2.2.2 1 rfl (by decide) (by decide)
      (fun j _ _ => rfl)
      (fun j h1 h2 => by simp only [beq_eq_false_iff_ne, ne_eq]; omega)
      (by decide)
    simpa [promptPollIntervalSeconds] using hc
  · exact h.1 rfl

end EhIDeCoder
